import Mathlib

/-!
Shallow embedding of the zynthian_engine base class
(src/zyngine/zynthian_engine.py) and verification of its specification.

The engine is a Python class; we embed its methods as pure Lean functions
over an explicit state record.  External collaborators (the operating
system, the liblo OSC library, the spawned process, the GUI) are passed in
as explicit oracle arguments: a collaborator call that may raise a Python
exception is an `Except PyErr` value.  The Python heap aliasing, where it
matters (the shared class-level controller template versus per-channel
deep copies), is modelled by an explicit reference heap.
-/

namespace ZynthianEngine

/-- A Python exception as observed by the engine code.  The only exception
class the engine ever distinguishes is liblo.AddressError (in osc_init), so
the model records just that flag. -/
structure PyErr where
  isAddressError : Bool
deriving DecidableEq, Repr

/-- Model of Python values stored in controller descriptor slots
(ctrl[2] is the current/default value, ctrl[3] the range or label list). -/
inductive PyVal where
  | int (n : Int)
  | str (s : String)
  | labels (l : List String)
deriving DecidableEq, Repr

/- ---------------------------------------------------------------------
Models of the Python builtins the engine uses on strings.  The native Lean
String primitives do not reduce inside the kernel, so these are written
by structural recursion over the character list. -/

/-- Python `<=` on single characters (code-point order). -/
def charLe (a b : Char) : Bool := a.val.toNat ≤ b.val.toNat

/-- Code-point lexicographic comparison of character lists, as Python
string `<=` used by `sorted`. -/
def strLeAux : List Char → List Char → Bool
  | [], _ => true
  | _ :: _, [] => false
  | c :: cs, d :: ds => if c = d then strLeAux cs ds else charLe c d

/-- Python `<=` on strings. -/
def strLe (a b : String) : Bool := strLeAux a.data b.data

/-- Stable insertion of an element into a sorted list (helper for the
model of Python `sorted`). -/
def insertSorted (le : α → α → Bool) (x : α) : List α → List α
  | [] => [x]
  | y :: ys => if le x y then x :: y :: ys else y :: insertSorted le x ys

/-- Model of Python `sorted` (stable, ascending). -/
def pySorted (le : α → α → Bool) : List α → List α
  | [] => []
  | x :: xs => insertSorted le x (pySorted le xs)

/-- ASCII lower-casing of one character, as Python `str.lower` acts on the
ASCII file names the engine handles. -/
def asciiLowerChar (c : Char) : Char :=
  if 65 ≤ c.val.toNat && c.val.toNat ≤ 90 then Char.ofNat (c.val.toNat + 32) else c

/-- Python `str.lower`. -/
def pyLower (s : String) : String := String.mk (s.data.map asciiLowerChar)

/-- Python slicing `s[-n:]` (the last `n` characters; the whole string when
`n ≥ len(s)`). -/
def pyTakeRight (s : String) (n : Nat) : String :=
  String.mk (s.data.drop (s.data.length - n))

/-- Python slicing `s[:-n]` (all but the last `n` characters). -/
def pyDropRight (s : String) (n : Nat) : String :=
  String.mk (s.data.take (s.data.length - n))

/-- Python `str.replace` for a one-character pattern and replacement, as in
`str.replace(f, underscore, space)`. -/
def pyReplaceChar (s : String) (pat rep : Char) : String :=
  String.mk (s.data.map (fun c => if c = pat then rep else c))

/-- Python list indexing `l[i]` as used in `get_ctrl_config`: nonnegative
indices count from the front, negative indices in `[-len, -1]` count from
the back, anything else raises IndexError (modelled as `none`). -/
def pyIndex (l : List α) (i : Int) : Option α :=
  if 0 ≤ i then l.get? i.toNat
  else if (-i) ≤ (l.length : Int) then l.get? (l.length - (-i).toNat) else none

/- ---------------------------------------------------------------------
Controller descriptor data model (class attributes midi_ctrls /
ctrl_screens_keys are instances of this shape; the per-engine template
self.ctrl_list and the per-channel copies self.ctrl_config hold the same
shape, grouped into screens). -/

/-- The addressing id of a controller descriptor, `ctrl[1]` in the source: a
string denotes an OSC path, an integer a MIDI CC number. -/
inductive CtrlAddr where
  | path (p : String)
  | cc (n : Int)
deriving DecidableEq, Repr

/-- One controller descriptor `ctrl = [name, addressing_id, value, extra]`
as consumed by `set_all_ctrls` (which reads ctrl[1], ctrl[2], ctrl[3]). -/
structure Ctrl where
  name : String
  addr : CtrlAddr
  value : PyVal
  extra : PyVal
deriving DecidableEq, Repr

/-- One screen entry `ctrlcfg` of a channel configuration; the source
accesses `ctrlcfg[0]`, the list of descriptors shown on that screen; any
further screen data is kept abstract in `meta`. -/
structure CtrlScreen where
  ctrls : List Ctrl
  meta : PyVal
deriving DecidableEq, Repr

/-- A controller configuration: the list of screens for one channel (the
shape of self.ctrl_list and of each self.ctrl_config[chan]). -/
abbrev CtrlConfig := List CtrlScreen

/-- liblo.Address as built by osc_init: host, port, protocol. -/
structure OscAddr where
  host : String
  port : Int
  proto : Int
deriving DecidableEq, Repr

/-- The mutable instance state of a zynthian_engine that the supervisor,
OSC and loading-counter methods touch.  `proc` is the process handle
(Popen object identity abstracted to a token), `queue` records whether the
output Queue was created. -/
structure EngineState where
  loading : Int
  proc : Option Nat
  queue : Option Unit
  osc_target : Option OscAddr
  osc_server : Option Nat
  osc_server_port : Option Int
  osc_server_url : Option String
deriving DecidableEq, Repr

/- ---------------------------------------------------------------------
Loading GUI signalization (lines 134-142). -/

/-- Source `start_loading`: increment self.loading, clamping to a floor of 1
(the GUI notification call is external and stateless here). -/
def start_loading (s : EngineState) : EngineState :=
  let l := s.loading + 1
  { s with loading := if l < 1 then 1 else l }

/-- Source `stop_loading`: decrement self.loading, clamping to a floor of 0. -/
def stop_loading (s : EngineState) : EngineState :=
  let l := s.loading - 1
  { s with loading := if l < 0 then 0 else l }

/-- One call in a sequence of busy-signal operations. -/
inductive LoadOp where
  | start
  | stop
deriving DecidableEq, Repr

/-- Run a sequence of start_loading/stop_loading calls. -/
def runLoading (s : EngineState) : List LoadOp → EngineState
  | [] => s
  | LoadOp.start :: ops => runLoading (start_loading s) ops
  | LoadOp.stop :: ops => runLoading (stop_loading s) ops

/-- Number of start_loading calls in a sequence. -/
def countStart : List LoadOp → Nat
  | [] => 0
  | LoadOp.start :: ops => countStart ops + 1
  | LoadOp.stop :: ops => countStart ops

/-- Number of stop_loading calls in a sequence. -/
def countStop : List LoadOp → Nat
  | [] => 0
  | LoadOp.start :: ops => countStop ops
  | LoadOp.stop :: ops => countStop ops + 1

/-- A nested, balanced call sequence: every prefix has at least as many
starts as stops, and the whole sequence has equally many. -/
def nestedBalanced (ops : List LoadOp) : Prop :=
  (∀ p ∈ ops.inits, countStop p ≤ countStart p) ∧ countStop ops = countStart ops

instance (ops : List LoadOp) : Decidable (nestedBalanced ops) := by
  unfold nestedBalanced
  infer_instance

/- ---------------------------------------------------------------------
Subprocess management and IPC (lines 171-225). -/

/-- Source `start(start_queue, shell)` (lines 171-188).  `popen` is the outcome of
the Popen call (and of the queue/thread setup that follows it inside the
same try block); on failure the error is logged and swallowed.  When a
process is already live the whole body is skipped. -/
def start (s : EngineState) (start_queue : Bool) (popen : Except PyErr Nat) :
    EngineState :=
  match s.proc with
  | some _ => s
  | none =>
    let s1 := start_loading s
    let s2 :=
      match popen with
      | Except.error _ => s1
      | Except.ok p =>
        let s3 := { s1 with proc := some p }
        if start_queue then { s3 with queue := some () } else s3
    stop_loading s2

/-- Source `stop(wait)` (lines 190-209): when a process is live, signal busy,
terminate/kill it (all termination errors swallowed), unconditionally
clear the handle and signal busy-end; otherwise do nothing. -/
def stop (s : EngineState) : EngineState :=
  match s.proc with
  | none => s
  | some _ =>
    let s1 := start_loading s
    stop_loading { s1 with proc := none }

/-- The Python value proc_cmd evaluates to: None when no process is live
(the function body is skipped and Python returns None), the drained line
list on success, the empty string after a caught write failure. -/
inductive PyResult where
  | pynone
  | pylines (l : List String)
  | pystr (s : String)
deriving DecidableEq, Repr

/-- Source `proc_cmd(cmd, tout)` (lines 211-225).  `writeOk` is the outcome of
writing and flushing the command on the stdin of the process; `lines` is what
proc_get_lines drains from the output queue.  All body failures are caught:
the function never raises. -/
def proc_cmd (s : EngineState) (writeOk : Except PyErr Unit)
    (lines : List String) : EngineState × PyResult :=
  match s.proc with
  | none => (s, PyResult.pynone)
  | some _ =>
    let s1 := start_loading s
    match writeOk with
    | Except.ok _ => (stop_loading s1, PyResult.pylines lines)
    | Except.error _ => (stop_loading s1, PyResult.pystr "")

/- ---------------------------------------------------------------------
OSC management (lines 231-244). -/

/-- Source `osc_init(proto)` (lines 231-244), one oracle per statement of
the try block that can raise: `mkTarget` is the liblo.Address constructor
for the outbound target (line 234), `mkServer` the liblo.ServerThread
constructor (line 236), `getPort` the get_port call (line 237), `mkUrl`
the second liblo.Address constructor plus get_url (line 238), `startSrv`
the osc_add_methods and server start calls (lines 240-241).  The except
clause wraps the whole block but catches only liblo.AddressError: a
caught error falls through to stop_loading and nothing propagates, while
any other exception propagates (returned as `some e`) and skips
stop_loading.  Either way every assignment made before the failing
statement keeps its effect — in particular an address error at line 237
or 238 leaves self.osc_server (line 236) set. -/
def osc_init (s : EngineState) (mkTarget : Except PyErr OscAddr)
    (mkServer : Except PyErr Nat) (getPort : Except PyErr Int)
    (mkUrl : Except PyErr String) (startSrv : Except PyErr Unit) :
    EngineState × Option PyErr :=
  let s1 := start_loading s
  match mkTarget with
  | Except.error e =>
    if e.isAddressError then (stop_loading s1, none) else (s1, some e)
  | Except.ok tgt =>
    let s2 := { s1 with osc_target := some tgt }
    match mkServer with
    | Except.error e =>
      if e.isAddressError then (stop_loading s2, none) else (s2, some e)
    | Except.ok srv =>
      let s3 := { s2 with osc_server := some srv }
      match getPort with
      | Except.error e =>
        if e.isAddressError then (stop_loading s3, none) else (s3, some e)
      | Except.ok port =>
        let s4 := { s3 with osc_server_port := some port }
        match mkUrl with
        | Except.error e =>
          if e.isAddressError then (stop_loading s4, none) else (s4, some e)
        | Except.ok url =>
          let s5 := { s4 with osc_server_url := some url }
          match startSrv with
          | Except.error e =>
            if e.isAddressError then (stop_loading s5, none) else (s5, some e)
          | Except.ok _ => (stop_loading s5, none)

/- ---------------------------------------------------------------------
Generating lists from the filesystem (get_filelist, lines 268-286). -/

/-- One result tuple of get_filelist: (join(dp,f), i, title, dn). -/
structure FileEntry where
  fpath : String
  idx : Nat
  title : String
  dname : String
deriving DecidableEq, Repr

/-- The inner loop of get_filelist over the sorted listing of one directory,
threading the running index `i`: keep regular files whose lower-cased
suffix matches the extension, build the title by stripping the extension,
replacing underscores with spaces and prefixing the root label when it is
not the placeholder underscore. -/
def fl_dir (isfile : String → Bool) (dn dp fext : String) (xlen : Nat)
    (i : Nat) : List String → List FileEntry × Nat
  | [] => ([], i)
  | f :: rest =>
    if isfile (dp ++ "/" ++ f) && pyLower (pyTakeRight f xlen) == fext then
      let title0 := pyReplaceChar (pyDropRight f xlen) '_' ' '
      let title := if dn == "_" then title0 else dn ++ "/" ++ title0
      let next := fl_dir isfile dn dp fext xlen (i + 1) rest
      ({ fpath := dp ++ "/" ++ f, idx := i, title := title, dname := dn } :: next.1,
       next.2)
    else fl_dir isfile dn dp fext xlen i rest

/-- The outer loop of get_filelist over the (label, path) roots.  A
listdir failure raises out of the whole function (there is no handler in
get_filelist). -/
def fl_dirs (listdir : String → Except PyErr (List String))
    (isfile : String → Bool) (fext : String) (xlen : Nat) (i : Nat) :
    List (String × String) → Except PyErr (List FileEntry)
  | [] => Except.ok []
  | (dn, dp) :: rest =>
    match listdir dp with
    | Except.error e => Except.error e
    | Except.ok names =>
      let done := fl_dir isfile dn dp fext xlen i (pySorted strLe names)
      match fl_dirs listdir isfile fext xlen done.2 rest with
      | Except.error e => Except.error e
      | Except.ok more => Except.ok (done.1 ++ more)

/-- Source `get_filelist(dpath, fext)` (lines 268-286).  `dpath` is either a bare
path string (labelled with the placeholder underscore) or a list of
(label, path) pairs.  `listdir` and `isfile` are the os collaborators.
start_loading runs on entry; there is no try/finally, so a listdir error
propagates (second component `Except.error`) with the busy counter still
incremented, while on success stop_loading restores it. -/
def get_filelist (s : EngineState) (dpath : String ⊕ List (String × String))
    (fext : String) (listdir : String → Except PyErr (List String))
    (isfile : String → Bool) :
    EngineState × Except PyErr (List FileEntry) :=
  let s1 := start_loading s
  let dirs :=
    match dpath with
    | Sum.inl p => [("_", p)]
    | Sum.inr l => l
  let fext2 := "." ++ fext
  match fl_dirs listdir isfile fext2 fext2.data.length 0 dirs with
  | Except.error e => (s1, Except.error e)
  | Except.ok res => (stop_loading s1, Except.ok res)

/- ---------------------------------------------------------------------
Controllers management (lines 350-380).

self.ctrl_list (the per-engine-type template) and self.ctrl_config (the
per-channel slots) live on the Python heap; load_ctrl_config stores a
copy.deepcopy of the template, while get_ctrl_list hands out the template
itself for channels that were never loaded.  To make that observable the
store keeps configurations behind numeric references: `heap` maps a
reference to its current value, `next` is the allocation counter (a
deep copy allocates a fresh reference carrying the copied value),
`ctrl_list` is the reference of the shared template and `ctrl_config chan`
the reference of the copy made for channel `chan`, `none` while unloaded. -/

structure CtrlStore where
  heap : Nat → CtrlConfig
  next : Nat
  ctrl_list : Nat
  ctrl_config : Nat → Option Nat

/-- Source `get_ctrl_list` (lines 350-354) as the reference it returns: the
configuration owned by the channel when loaded, otherwise (the lookup raises and
the except clause answers) the shared template itself. -/
def get_ctrl_list_ref (st : CtrlStore) (midi_chan : Nat) : Nat :=
  match st.ctrl_config midi_chan with
  | some r => r
  | none => st.ctrl_list

/-- The configuration value seen through get_ctrl_list. -/
def get_ctrl_list_val (st : CtrlStore) (midi_chan : Nat) : CtrlConfig :=
  st.heap (get_ctrl_list_ref st midi_chan)

/-- Source `load_ctrl_config(chan)` (lines 362-365):
self.ctrl_config[chan] = copy.deepcopy(self.ctrl_list) — allocate a fresh
reference holding the current value of the template and point the slot of
the channel at it. -/
def load_ctrl_config (st : CtrlStore) (chan : Nat) : CtrlStore :=
  { heap := fun r => if r = st.next then st.heap st.ctrl_list else st.heap r,
    next := st.next + 1,
    ctrl_list := st.ctrl_list,
    ctrl_config := fun c => if c = chan then some st.next else st.ctrl_config c }

/-- An in-place mutation of the configuration stored at reference `r`
(e.g. a subclass updating a current value): only that heap cell changes. -/
def write_config (st : CtrlStore) (r : Nat) (f : CtrlConfig → CtrlConfig) :
    CtrlStore :=
  { st with heap := fun r2 => if r2 = r then f (st.heap r) else st.heap r2 }

/-- Source `get_ctrl_config(i)` (lines 356-360): self.ctrl_config[self.midi_chan][i][0]
inside try/except — None when the channel is unloaded (the slot lookup
raises) or the Python indexing raises IndexError, else the descriptor
list of the screen (`[0]` of the screen entry). -/
def get_ctrl_config (st : CtrlStore) (midi_chan : Nat) (i : Int) :
    Option (List Ctrl) :=
  match st.ctrl_config midi_chan with
  | none => none
  | some r =>
    match pyIndex (st.heap r) i with
    | none => none
    | some scr => some scr.ctrls

/- ---------------------------------------------------------------------
set_all_ctrls (lines 371-380). -/

/-- One outbound message of set_all_ctrls: either liblo.send to the OSC
target, or zynmidi.set_midi_control with (channel, cc, value). -/
inductive OutMsg where
  | osc (target : Option OscAddr) (path : String) (v : PyVal)
  | midi (chan : Nat) (cc : Int) (v : PyVal)
deriving DecidableEq, Repr

/-- The innermost loop of set_all_ctrls over the descriptors of one screen:
`if isinstance(ctrl[1], str)` sends OSC with get_ctrl_osc_val, `elif
ctrl[1] > 0` sends MIDI CC with get_ctrl_midi_val, else nothing.  The two
value-conversion hooks are subclass responsibilities, passed as `oscVal`
and `midiVal`. -/
def send_ctrls (ch : Nat) (target : Option OscAddr)
    (oscVal midiVal : PyVal → PyVal → PyVal) : List Ctrl → List OutMsg
  | [] => []
  | c :: rest =>
    (match c.addr with
     | CtrlAddr.path p => [OutMsg.osc target p (oscVal c.value c.extra)]
     | CtrlAddr.cc n =>
       if n > 0 then [OutMsg.midi ch n (midiVal c.value c.extra)] else []) ++
    send_ctrls ch target oscVal midiVal rest

/-- The middle loop of set_all_ctrls over the screens of a channel. -/
def send_screens (ch : Nat) (target : Option OscAddr)
    (oscVal midiVal : PyVal → PyVal → PyVal) : List CtrlScreen → List OutMsg
  | [] => []
  | scr :: rest =>
    send_ctrls ch target oscVal midiVal scr.ctrls ++
    send_screens ch target oscVal midiVal rest

/-- The outer loop of set_all_ctrls over its channel list: `if
self.ctrl_config[ch]:` skips unloaded slots (falsy None) and empty
configurations (falsy empty list). -/
def set_all_chans (cfg : Nat → Option CtrlConfig) (target : Option OscAddr)
    (oscVal midiVal : PyVal → PyVal → PyVal) : List Nat → List OutMsg
  | [] => []
  | ch :: rest =>
    (match cfg ch with
     | none => []
     | some screens =>
       if screens.isEmpty then []
       else send_screens ch target oscVal midiVal screens) ++
    set_all_chans cfg target oscVal midiVal rest

/-- Source `set_all_ctrls` (lines 371-380): iterate channels 0..15. -/
def set_all_ctrls (cfg : Nat → Option CtrlConfig) (target : Option OscAddr)
    (oscVal midiVal : PyVal → PyVal → PyVal) : List OutMsg :=
  set_all_chans cfg target oscVal midiVal (List.range 16)

/-- The per-descriptor routing rule of the specification, written from the
words of the spec: textual addressing id — one OSC send; positive integer id —
one MIDI-CC send with (channel, id, MIDI value); otherwise no message. -/
def route_ctrl (ch : Nat) (target : Option OscAddr)
    (oscVal midiVal : PyVal → PyVal → PyVal) (c : Ctrl) : Option OutMsg :=
  match c.addr with
  | CtrlAddr.path p => some (OutMsg.osc target p (oscVal c.value c.extra))
  | CtrlAddr.cc n =>
    if 0 < n then some (OutMsg.midi ch n (midiVal c.value c.extra)) else none

/-- The description the specification gives of broadcast_all: for every channel
0..15 with a loaded configuration, every screen, every descriptor, emit
exactly the message route_ctrl prescribes; unloaded channels contribute
nothing. -/
def broadcast_all_spec (cfg : Nat → Option CtrlConfig)
    (target : Option OscAddr) (oscVal midiVal : PyVal → PyVal → PyVal) :
    List OutMsg :=
  (List.range 16).flatMap fun ch =>
    match cfg ch with
    | none => []
    | some screens =>
      screens.flatMap fun scr => scr.ctrls.filterMap (route_ctrl ch target oscVal midiVal)

/- ---------------------------------------------------------------------
Sample states used to instantiate proved properties on concrete inputs. -/

/-- A freshly initialized engine: counter 0, no process, no OSC state. -/
def sampleState : EngineState :=
  { loading := 0, proc := none, queue := none, osc_target := none,
    osc_server := none, osc_server_port := none, osc_server_url := none }

/-- An engine with a live process handle. -/
def sampleLive : EngineState := { sampleState with proc := some 42 }

/- ---------------------------------------------------------------------
Busy/loading counter lemmas. -/

theorem start_loading_loading (s : EngineState) :
    (start_loading s).loading = if s.loading + 1 < 1 then 1 else s.loading + 1 := rfl

theorem stop_loading_loading (s : EngineState) :
    (stop_loading s).loading = if s.loading - 1 < 0 then 0 else s.loading - 1 := rfl

theorem start_loading_nonneg (s : EngineState) : 0 ≤ (start_loading s).loading := by
  rw [start_loading_loading]; split <;> omega

theorem stop_loading_nonneg (s : EngineState) : 0 ≤ (stop_loading s).loading := by
  rw [stop_loading_loading]; split <;> omega

theorem start_loading_val (s : EngineState) (h : 0 ≤ s.loading) :
    (start_loading s).loading = s.loading + 1 := by
  rw [start_loading_loading]; split <;> omega

theorem stop_loading_val (s : EngineState) (h : 1 ≤ s.loading) :
    (stop_loading s).loading = s.loading - 1 := by
  rw [stop_loading_loading]; split <;> omega

theorem runLoading_nonneg (ops : List LoadOp) :
    ∀ s : EngineState, 0 ≤ s.loading → 0 ≤ (runLoading s ops).loading := by
  induction ops with
  | nil => intro s hs; simpa [runLoading] using hs
  | cons op rest ih =>
    intro s _
    cases op
    · simpa only [runLoading] using ih (start_loading s) (start_loading_nonneg s)
    · simpa only [runLoading] using ih (stop_loading s) (stop_loading_nonneg s)

theorem runLoading_count (ops : List LoadOp) :
    ∀ (n : Nat) (s : EngineState), (n : Int) ≤ s.loading →
      (∀ p ∈ ops.inits, (countStop p : Int) ≤ countStart p + n) →
      (runLoading s ops).loading = s.loading + countStart ops - countStop ops := by
  induction ops with
  | nil => intro n s _ _; simp [runLoading, countStart, countStop]
  | cons op rest ih =>
    intro n s hn hpre
    cases op with
    | start =>
      have hs : (start_loading s).loading = s.loading + 1 :=
        start_loading_val s (by omega)
      have hrest : ∀ p ∈ rest.inits, (countStop p : Int) ≤ countStart p + (n + 1) := by
        intro p hp
        have hmem : (LoadOp.start :: p) ∈ (LoadOp.start :: rest).inits := by
          rw [List.mem_inits] at hp ⊢
          exact List.cons_prefix_cons.2 ⟨rfl, hp⟩
        have := hpre (LoadOp.start :: p) hmem
        simp only [countStop, countStart] at this
        push_cast at this ⊢
        omega
      have := ih (n + 1) (start_loading s) (by rw [hs]; push_cast; omega) hrest
      simp only [runLoading] at this ⊢
      rw [this, hs]
      simp only [countStart, countStop]
      push_cast
      omega
    | stop =>
      have hstop : (1 : Int) ≤ n := by
        have hmem : [LoadOp.stop] ∈ (LoadOp.stop :: rest).inits := by
          rw [List.mem_inits]
          exact List.cons_prefix_cons.2 ⟨rfl, List.nil_prefix⟩
        have := hpre [LoadOp.stop] hmem
        simp only [countStop, countStart] at this
        push_cast at this
        omega
      obtain ⟨m, rfl⟩ : ∃ m, n = m + 1 := by
        refine ⟨n - 1, ?_⟩
        omega
      have hs : (stop_loading s).loading = s.loading - 1 :=
        stop_loading_val s (by push_cast at hn; omega)
      have hrest : ∀ p ∈ rest.inits, (countStop p : Int) ≤ countStart p + m := by
        intro p hp
        have hmem : (LoadOp.stop :: p) ∈ (LoadOp.stop :: rest).inits := by
          rw [List.mem_inits] at hp ⊢
          exact List.cons_prefix_cons.2 ⟨rfl, hp⟩
        have := hpre (LoadOp.stop :: p) hmem
        simp only [countStop, countStart] at this
        push_cast at this ⊢
        omega
      have := ih m (stop_loading s) (by rw [hs]; push_cast at hn ⊢; omega) hrest
      simp only [runLoading] at this ⊢
      rw [this, hs]
      simp only [countStart, countStop]
      push_cast
      omega

/-- C3: for every sequence of start_loading/stop_loading calls the counter
is never negative after any prefix; every nested, balanced sequence leaves
the counter exactly where it started; and three starts followed by two
stops from counter 0 end at exactly 1. -/
theorem loading_counter_nested_balanced :
    (∀ (s : EngineState) (ops : List LoadOp), 0 ≤ s.loading →
      ∀ p ∈ ops.inits, 0 ≤ (runLoading s p).loading) ∧
    (∀ (s : EngineState) (ops : List LoadOp), 0 ≤ s.loading →
      nestedBalanced ops → (runLoading s ops).loading = s.loading) ∧
    (runLoading sampleState
      [LoadOp.start, LoadOp.start, LoadOp.start, LoadOp.stop, LoadOp.stop]).loading = 1 := by
  refine ⟨?_, ?_, by decide⟩
  · intro s ops hs p _
    exact runLoading_nonneg p s hs
  · intro s ops hs hbal
    have := runLoading_count ops 0 s (by omega) ?_
    · rw [this]
      have heq := hbal.2
      omega
    · intro p hp
      have := hbal.1 p hp
      push_cast
      omega

/-- Witness for C3 at concrete inputs. -/
theorem loading_counter_nested_balanced_witness :
    (0 ≤ (runLoading sampleState [LoadOp.start, LoadOp.stop]).loading) ∧
    ((runLoading sampleState [LoadOp.start, LoadOp.start, LoadOp.stop, LoadOp.stop]).loading
      = sampleState.loading) ∧
    (runLoading sampleState
      [LoadOp.start, LoadOp.start, LoadOp.start, LoadOp.stop, LoadOp.stop]).loading = 1 :=
  ⟨loading_counter_nested_balanced.1 sampleState [LoadOp.start, LoadOp.stop] (by decide)
      [LoadOp.start, LoadOp.stop] (by decide),
   loading_counter_nested_balanced.2.1 sampleState
      [LoadOp.start, LoadOp.start, LoadOp.stop, LoadOp.stop] (by decide) (by decide),
   loading_counter_nested_balanced.2.2⟩

/- ---------------------------------------------------------------------
C5: start() is a no-op while a process is live. -/

theorem start_of_live (s : EngineState) (p : Nat) (sq : Bool)
    (popen : Except PyErr Nat) (h : s.proc = some p) : start s sq popen = s := by
  unfold start
  rw [h]

theorem start_of_fresh_proc (s : EngineState) (p : Nat) (sq : Bool)
    (h : s.proc = none) : (start s sq (Except.ok p)).proc = some p := by
  unfold start
  rw [h]
  cases sq <;> rfl

/-- C5: with a process handle already set, start() leaves the whole state
unchanged (no second spawn, handle untouched), so a second start() after
one that spawned a process changes nothing: exactly one live process. -/
theorem start_noop_when_live :
    (∀ (s : EngineState) (p : Nat) (sq : Bool) (popen : Except PyErr Nat),
      s.proc = some p → start s sq popen = s) ∧
    (∀ (s : EngineState) (p : Nat) (sq sq2 : Bool) (popen2 : Except PyErr Nat),
      s.proc = none →
      (start s sq (Except.ok p)).proc = some p ∧
      start (start s sq (Except.ok p)) sq2 popen2 = start s sq (Except.ok p)) := by
  refine ⟨start_of_live, ?_⟩
  intro s p sq sq2 popen2 h
  have hproc := start_of_fresh_proc s p sq h
  exact ⟨hproc, start_of_live (start s sq (Except.ok p)) p sq2 popen2 hproc⟩

/-- Witness for C5 at concrete inputs. -/
theorem start_noop_when_live_witness :
    (sampleLive.proc = some 42 ∧ start sampleLive true (Except.ok 7) = sampleLive) ∧
    (sampleState.proc = none ∧
      (start sampleState true (Except.ok 7)).proc = some 7 ∧
      start (start sampleState true (Except.ok 7)) false (Except.ok 9)
        = start sampleState true (Except.ok 7)) :=
  ⟨⟨rfl, start_noop_when_live.1 sampleLive 42 true (Except.ok 7) rfl⟩,
   ⟨rfl, start_noop_when_live.2 sampleState 7 true false (Except.ok 9) rfl⟩⟩

/- ---------------------------------------------------------------------
C6: proc_cmd with no live process. -/

/-- C6: with no process handle set, proc_cmd skips its whole body for any
command/timeout: it returns Python None (the empty/undefined result), does
not raise, and leaves the state untouched. -/
theorem proc_cmd_no_proc_returns_none (s : EngineState)
    (writeOk : Except PyErr Unit) (lines : List String) (h : s.proc = none) :
    proc_cmd s writeOk lines = (s, PyResult.pynone) := by
  unfold proc_cmd
  rw [h]

/-- Witness for C6 at concrete inputs. -/
theorem proc_cmd_no_proc_returns_none_witness :
    sampleState.proc = none ∧
    proc_cmd sampleState (Except.ok ()) ["line"] = (sampleState, PyResult.pynone) :=
  ⟨rfl, proc_cmd_no_proc_returns_none sampleState (Except.ok ()) ["line"] rfl⟩

/- ---------------------------------------------------------------------
C1: set_all_ctrls routes exactly one message per descriptor. -/

theorem send_ctrls_eq (ch : Nat) (target : Option OscAddr)
    (oscVal midiVal : PyVal → PyVal → PyVal) (ctrls : List Ctrl) :
    send_ctrls ch target oscVal midiVal ctrls
      = ctrls.filterMap (route_ctrl ch target oscVal midiVal) := by
  induction ctrls with
  | nil => rfl
  | cons c rest ih =>
    simp only [send_ctrls, List.filterMap_cons, route_ctrl]
    cases c.addr with
    | path p => simp [ih]
    | cc n =>
      by_cases hn : n > 0
      · simp [hn, ih]
      · simp [hn, ih]

theorem send_screens_eq (ch : Nat) (target : Option OscAddr)
    (oscVal midiVal : PyVal → PyVal → PyVal) (screens : List CtrlScreen) :
    send_screens ch target oscVal midiVal screens
      = screens.flatMap fun scr =>
          scr.ctrls.filterMap (route_ctrl ch target oscVal midiVal) := by
  induction screens with
  | nil => rfl
  | cons scr rest ih =>
    simp only [send_screens, List.flatMap_cons, ih, send_ctrls_eq]

theorem set_all_chans_eq (cfg : Nat → Option CtrlConfig) (target : Option OscAddr)
    (oscVal midiVal : PyVal → PyVal → PyVal) (chans : List Nat) :
    set_all_chans cfg target oscVal midiVal chans
      = chans.flatMap fun ch =>
          match cfg ch with
          | none => []
          | some screens =>
            screens.flatMap fun scr =>
              scr.ctrls.filterMap (route_ctrl ch target oscVal midiVal) := by
  induction chans with
  | nil => rfl
  | cons ch rest ih =>
    simp only [set_all_chans, List.flatMap_cons, ih]
    congr 1
    cases hcfg : cfg ch with
    | none => rfl
    | some screens =>
      by_cases he : screens.isEmpty
      · rw [List.isEmpty_iff] at he
        subst he
        simp
      · simp [he, send_screens_eq]

/-- C1: set_all_ctrls emits, per loaded channel 0..15 and per descriptor of
the configuration of that channel, exactly the one message the routing rule
prescribes — an OSC send for a textual addressing id, a MIDI-CC send
(channel, id, MIDI value) for a positive integer id, nothing for a
non-positive integer id — and unloaded channels contribute no messages:
the send loop equals the specification broadcast. -/
theorem set_all_ctrls_routes_per_descriptor (cfg : Nat → Option CtrlConfig)
    (target : Option OscAddr) (oscVal midiVal : PyVal → PyVal → PyVal) :
    set_all_ctrls cfg target oscVal midiVal
      = broadcast_all_spec cfg target oscVal midiVal := by
  unfold set_all_ctrls broadcast_all_spec
  exact set_all_chans_eq cfg target oscVal midiVal (List.range 16)

/- ---------------------------------------------------------------------
C7: osc_init failure behaviour. -/

theorem stop_loading_undo (x : EngineState) (c : Int) (h0 : 0 ≤ c)
    (h : x.loading = c + 1) : (stop_loading x).loading = c := by
  rw [stop_loading_loading, h]; split <;> omega

/-- The outbound address osc_init would build on success. -/
def sampleTarget : OscAddr := { host := "localhost", port := 6693, proto := 1 }

/-- C7 counterexample: osc_init on a state with no OSC state, where the
target (line 234), server (line 236) and port (line 237) steps succeed
and the URL constructor (line 238) then raises a caught address error,
leaves the outbound target AND the inbound server SET (both were assigned
before the failing statement), contradicting "both the outbound target
and the inbound server are left unset". -/
theorem osc_init_server_failure_target_remains_set :
    (osc_init sampleState (Except.ok sampleTarget) (Except.ok 1)
        (Except.ok 9000) (Except.error { isAddressError := true })
        (Except.ok ())).1.osc_target = some sampleTarget ∧
    (osc_init sampleState (Except.ok sampleTarget) (Except.ok 1)
        (Except.ok 9000) (Except.error { isAddressError := true })
        (Except.ok ())).1.osc_server = some 1 ∧
    ¬ (osc_init sampleState (Except.ok sampleTarget) (Except.ok 1)
        (Except.ok 9000) (Except.error { isAddressError := true })
        (Except.ok ())).1.osc_target = none ∧
    ¬ (osc_init sampleState (Except.ok sampleTarget) (Except.ok 1)
        (Except.ok 9000) (Except.error { isAddressError := true })
        (Except.ok ())).1.osc_server = none := by
  refine ⟨rfl, rfl, by decide, by decide⟩

/-- C7 amended: an address error raised anywhere in the osc_init try
block is logged and swallowed — nothing propagates and the busy-end
signal runs — and every field assigned before the failing statement keeps
its value while the later ones are untouched.  Concretely: failure of the
outbound-address constructor leaves target and server as they were
(unset when they were unset); failure of the ServerThread constructor
leaves the target set and the server as it was; failure at get_port, at
the URL constructor, or while registering/starting the server occurs
after the server assignment, so the server (and whatever else was
assigned) remains set. -/
theorem osc_init_address_error_outcomes :
    (∀ (s : EngineState) (e : PyErr) (mkServer : Except PyErr Nat)
        (getPort : Except PyErr Int) (mkUrl : Except PyErr String)
        (startSrv : Except PyErr Unit),
      e.isAddressError = true →
      osc_init s (Except.error e) mkServer getPort mkUrl startSrv
        = (stop_loading (start_loading s), none)) ∧
    (∀ (s : EngineState) (tgt : OscAddr) (e : PyErr)
        (getPort : Except PyErr Int) (mkUrl : Except PyErr String)
        (startSrv : Except PyErr Unit),
      e.isAddressError = true →
      osc_init s (Except.ok tgt) (Except.error e) getPort mkUrl startSrv
        = (stop_loading { start_loading s with osc_target := some tgt }, none)) ∧
    (∀ (s : EngineState) (tgt : OscAddr) (srv : Nat) (e : PyErr)
        (mkUrl : Except PyErr String) (startSrv : Except PyErr Unit),
      e.isAddressError = true →
      osc_init s (Except.ok tgt) (Except.ok srv) (Except.error e) mkUrl startSrv
        = (stop_loading { start_loading s with
            osc_target := some tgt,
            osc_server := some srv }, none)) ∧
    (∀ (s : EngineState) (tgt : OscAddr) (srv : Nat) (port : Int) (e : PyErr)
        (startSrv : Except PyErr Unit),
      e.isAddressError = true →
      osc_init s (Except.ok tgt) (Except.ok srv) (Except.ok port)
          (Except.error e) startSrv
        = (stop_loading { start_loading s with
            osc_target := some tgt,
            osc_server := some srv,
            osc_server_port := some port }, none)) ∧
    (∀ (s : EngineState) (tgt : OscAddr) (srv : Nat) (port : Int)
        (url : String) (e : PyErr),
      e.isAddressError = true →
      osc_init s (Except.ok tgt) (Except.ok srv) (Except.ok port)
          (Except.ok url) (Except.error e)
        = (stop_loading { start_loading s with
            osc_target := some tgt,
            osc_server := some srv,
            osc_server_port := some port,
            osc_server_url := some url }, none)) := by
  refine ⟨?_, ?_, ?_, ?_, ?_⟩
  · intro s e mkServer getPort mkUrl startSrv he
    unfold osc_init
    dsimp only
    rw [if_pos he]
  · intro s tgt e getPort mkUrl startSrv he
    unfold osc_init
    dsimp only
    rw [if_pos he]
  · intro s tgt srv e mkUrl startSrv he
    unfold osc_init
    dsimp only
    rw [if_pos he]
  · intro s tgt srv port e startSrv he
    unfold osc_init
    dsimp only
    rw [if_pos he]
  · intro s tgt srv port url e he
    unfold osc_init
    dsimp only
    rw [if_pos he]

/-- Witness for the amended C7: one concrete instance per failure
position, each discharged through the theorem. -/
theorem osc_init_address_error_outcomes_witness :
    (osc_init sampleState (Except.error { isAddressError := true })
        (Except.ok 1) (Except.ok 9000) (Except.ok "u") (Except.ok ())
      = (stop_loading (start_loading sampleState), none)) ∧
    (osc_init sampleState (Except.ok sampleTarget)
        (Except.error { isAddressError := true }) (Except.ok 9000)
        (Except.ok "u") (Except.ok ())
      = (stop_loading { start_loading sampleState with
          osc_target := some sampleTarget }, none)) ∧
    (osc_init sampleState (Except.ok sampleTarget) (Except.ok 1)
        (Except.error { isAddressError := true }) (Except.ok "u") (Except.ok ())
      = (stop_loading { start_loading sampleState with
          osc_target := some sampleTarget, osc_server := some 1 }, none)) ∧
    (osc_init sampleState (Except.ok sampleTarget) (Except.ok 1)
        (Except.ok 9000) (Except.error { isAddressError := true }) (Except.ok ())
      = (stop_loading { start_loading sampleState with
          osc_target := some sampleTarget, osc_server := some 1,
          osc_server_port := some 9000 }, none)) ∧
    (osc_init sampleState (Except.ok sampleTarget) (Except.ok 1)
        (Except.ok 9000) (Except.ok "u") (Except.error { isAddressError := true })
      = (stop_loading { start_loading sampleState with
          osc_target := some sampleTarget, osc_server := some 1,
          osc_server_port := some 9000, osc_server_url := some "u" }, none)) :=
  ⟨osc_init_address_error_outcomes.1 sampleState { isAddressError := true }
      (Except.ok 1) (Except.ok 9000) (Except.ok "u") (Except.ok ()) rfl,
   osc_init_address_error_outcomes.2.1 sampleState sampleTarget
      { isAddressError := true } (Except.ok 9000) (Except.ok "u")
      (Except.ok ()) rfl,
   osc_init_address_error_outcomes.2.2.1 sampleState sampleTarget 1
      { isAddressError := true } (Except.ok "u") (Except.ok ()) rfl,
   osc_init_address_error_outcomes.2.2.2.1 sampleState sampleTarget 1 9000
      { isAddressError := true } (Except.ok ()) rfl,
   osc_init_address_error_outcomes.2.2.2.2 sampleState sampleTarget 1 9000
      "u" { isAddressError := true } rfl⟩

/- ---------------------------------------------------------------------
C8: get_ctrl_config indexing behaviour. -/

/-- Descriptor samples for the controller-store scenarios. -/
def sampleCtrl1 : Ctrl :=
  { name := "volume", addr := CtrlAddr.cc 7, value := PyVal.int 96,
    extra := PyVal.int 0 }

def sampleCtrl2 : Ctrl :=
  { name := "cutoff", addr := CtrlAddr.cc 74, value := PyVal.int 64,
    extra := PyVal.int 0 }

def sampleScreen1 : CtrlScreen :=
  { ctrls := [sampleCtrl1], meta := PyVal.str "main" }

def sampleScreen2 : CtrlScreen :=
  { ctrls := [sampleCtrl2], meta := PyVal.str "effects" }

/-- A store whose template (reference 0) is empty and where channel 5 has
a loaded two-screen configuration at reference 1. -/
def sampleStore : CtrlStore :=
  { heap := fun r => if r = 1 then [sampleScreen1, sampleScreen2] else [],
    next := 2,
    ctrl_list := 0,
    ctrl_config := fun c => if c = 5 then some 1 else none }

/-- C8 counterexample: on a loaded channel with a two-screen
configuration, index -1 is out of the range 0..len-1, yet get_ctrl_config
returns the LAST descriptor-group (Python negative indexing), not the
sentinel None. -/
theorem get_ctrl_config_negative_index_returns_group :
    get_ctrl_config sampleStore 5 (-1) = some [sampleCtrl2] ∧
    ¬ get_ctrl_config sampleStore 5 (-1) = none := by
  constructor
  · rfl
  · intro hcontra
    rw [show get_ctrl_config sampleStore 5 (-1) = some [sampleCtrl2] from rfl] at hcontra
    cases hcontra

/-- C8 amended: get_ctrl_config never raises (it is total, the source
wraps the access in a bare try/except answering None) and returns None
when the channel is unloaded; for a loaded channel it returns the
descriptor-group at position i for 0 ≤ i (None once i is at or past the
length), the group at position len+i for -len ≤ i < 0 (Python negative
indexing), and None for i < -len. -/
theorem get_ctrl_config_python_indexing (st : CtrlStore) (chan : Nat) (i : Int) :
    (st.ctrl_config chan = none → get_ctrl_config st chan i = none) ∧
    (∀ r, st.ctrl_config chan = some r →
      (0 ≤ i → get_ctrl_config st chan i
          = ((st.heap r).get? i.toNat).map CtrlScreen.ctrls) ∧
      ((i < 0 ∧ -((st.heap r).length : Int) ≤ i) → get_ctrl_config st chan i
          = ((st.heap r).get? ((st.heap r).length - (-i).toNat)).map CtrlScreen.ctrls) ∧
      (i < -((st.heap r).length : Int) → get_ctrl_config st chan i = none)) := by
  constructor
  · intro h
    unfold get_ctrl_config
    rw [h]
  · intro r hr
    refine ⟨?_, ?_, ?_⟩
    · intro hi
      simp only [get_ctrl_config, hr]
      unfold pyIndex
      rw [if_pos hi]
      cases (st.heap r).get? i.toNat <;> rfl
    · intro hi
      simp only [get_ctrl_config, hr]
      unfold pyIndex
      rw [if_neg (by omega), if_pos (by omega)]
      cases (st.heap r).get? ((st.heap r).length - (-i).toNat) <;> rfl
    · intro hi
      simp only [get_ctrl_config, hr]
      unfold pyIndex
      rw [if_neg (by omega), if_neg (by omega)]

/-- Witness for the amended C8 at concrete inputs: an unloaded channel, an
in-range index, a negative index and a too-negative index on sampleStore. -/
theorem get_ctrl_config_python_indexing_witness :
    (get_ctrl_config sampleStore 3 0 = none) ∧
    (get_ctrl_config sampleStore 5 0
      = ((sampleStore.heap 1).get? 0).map CtrlScreen.ctrls) ∧
    (get_ctrl_config sampleStore 5 (-1)
      = ((sampleStore.heap 1).get? ((sampleStore.heap 1).length - 1)).map CtrlScreen.ctrls) ∧
    (get_ctrl_config sampleStore 5 (-3) = none) :=
  ⟨(get_ctrl_config_python_indexing sampleStore 3 0).1 rfl,
   ((get_ctrl_config_python_indexing sampleStore 5 0).2 1 rfl).1 (by decide),
   by
    have h := ((get_ctrl_config_python_indexing sampleStore 5 (-1)).2 1 rfl).2.1
      (by constructor <;> decide)
    simpa using h,
   ((get_ctrl_config_python_indexing sampleStore 5 (-3)).2 1 rfl).2.2 (by decide)⟩

/- ---------------------------------------------------------------------
C9: get_filelist directory-listing scenario. -/

/-- os.listdir for a filesystem holding the kit directory of the scenario with
files piano_1.wav and drums.wav (listdir order deliberately unsorted). -/
def kitListing (p : String) : Except PyErr (List String) :=
  if p = "/zynbanks/kit" then Except.ok ["piano_1.wav", "drums.wav"]
  else Except.error { isAddressError := false }

/-- os.path.isfile for the same filesystem. -/
def kitIsFile (p : String) : Bool :=
  p == "/zynbanks/kit/piano_1.wav" || p == "/zynbanks/kit/drums.wav"

/-- C9: over the root labelled kit with extension filter wav, get_filelist
returns exactly (path(drums.wav), 0, kit/drums, kit) then
(path(piano_1.wav), 1, kit/piano 1, kit): lexicographic filename order,
sequential indices from 0, underscores rendered as spaces, label prefixed;
the busy counter is restored on this error-free run. -/
theorem get_filelist_kit_scenario :
    get_filelist sampleState (Sum.inr [("kit", "/zynbanks/kit")]) "wav"
        kitListing kitIsFile
      = (sampleState,
         Except.ok
           [{ fpath := "/zynbanks/kit/drums.wav", idx := 0,
              title := "kit/drums", dname := "kit" },
            { fpath := "/zynbanks/kit/piano_1.wav", idx := 1,
              title := "kit/piano 1", dname := "kit" }]) := by
  rfl

/- ---------------------------------------------------------------------
C2: deep-copy isolation between loaded channels and the template. -/

theorem load_load_refs (st : CtrlStore) (c c2 : Nat) (hne : c ≠ c2) :
    get_ctrl_list_ref (load_ctrl_config (load_ctrl_config st c) c2) c = st.next ∧
    get_ctrl_list_ref (load_ctrl_config (load_ctrl_config st c) c2) c2 = st.next + 1 ∧
    (load_ctrl_config (load_ctrl_config st c) c2).ctrl_list = st.ctrl_list := by
  refine ⟨?_, ?_, rfl⟩
  · simp [get_ctrl_list_ref, load_ctrl_config, hne]
  · simp [get_ctrl_list_ref, load_ctrl_config]

/-- C2: after loading two distinct channels, the two per-channel copies
and the class-level template sit at three pairwise distinct references,
and an in-place mutation of the configuration of channel c changes the
value of channel c only: the configuration of channel c2 and the stored
template value are untouched. -/
theorem load_ctrl_config_copy_isolation (st : CtrlStore) (c c2 : Nat)
    (hne : c ≠ c2) (hinv : st.ctrl_list < st.next) (f : CtrlConfig → CtrlConfig) :
    get_ctrl_list_ref (load_ctrl_config (load_ctrl_config st c) c2) c
        ≠ get_ctrl_list_ref (load_ctrl_config (load_ctrl_config st c) c2) c2 ∧
    get_ctrl_list_ref (load_ctrl_config (load_ctrl_config st c) c2) c
        ≠ (load_ctrl_config (load_ctrl_config st c) c2).ctrl_list ∧
    get_ctrl_list_ref (load_ctrl_config (load_ctrl_config st c) c2) c2
        ≠ (load_ctrl_config (load_ctrl_config st c) c2).ctrl_list ∧
    get_ctrl_list_val
        (write_config (load_ctrl_config (load_ctrl_config st c) c2)
          (get_ctrl_list_ref (load_ctrl_config (load_ctrl_config st c) c2) c) f) c2
      = get_ctrl_list_val (load_ctrl_config (load_ctrl_config st c) c2) c2 ∧
    (write_config (load_ctrl_config (load_ctrl_config st c) c2)
          (get_ctrl_list_ref (load_ctrl_config (load_ctrl_config st c) c2) c) f).heap
        st.ctrl_list
      = st.heap st.ctrl_list ∧
    get_ctrl_list_val
        (write_config (load_ctrl_config (load_ctrl_config st c) c2)
          (get_ctrl_list_ref (load_ctrl_config (load_ctrl_config st c) c2) c) f) c
      = f (get_ctrl_list_val (load_ctrl_config (load_ctrl_config st c) c2) c) := by
  have e2 : st.ctrl_list ≠ st.next := by omega
  have e3 : st.ctrl_list ≠ st.next + 1 := by omega
  obtain ⟨h1, h2, h3⟩ := load_load_refs st c c2 hne
  refine ⟨?_, ?_, ?_, ?_, ?_, ?_⟩
  · rw [h1, h2]; omega
  · rw [h1, h3]; omega
  · rw [h2, h3]; omega
  · show (write_config (load_ctrl_config (load_ctrl_config st c) c2)
        (get_ctrl_list_ref (load_ctrl_config (load_ctrl_config st c) c2) c) f).heap
          (get_ctrl_list_ref (load_ctrl_config (load_ctrl_config st c) c2) c2)
      = (load_ctrl_config (load_ctrl_config st c) c2).heap
          (get_ctrl_list_ref (load_ctrl_config (load_ctrl_config st c) c2) c2)
    rw [h1, h2]
    show (if st.next + 1 = st.next then _ else _) = _
    rw [if_neg (by omega)]
  · rw [h1]
    show (if st.ctrl_list = st.next then _ else _) = _
    rw [if_neg e2]
    show (if st.ctrl_list = st.next + 1 then _ else _) = _
    rw [if_neg e3]
    show (if st.ctrl_list = st.next then _ else _) = _
    rw [if_neg e2]
  · show (write_config (load_ctrl_config (load_ctrl_config st c) c2)
        (get_ctrl_list_ref (load_ctrl_config (load_ctrl_config st c) c2) c) f).heap
          (get_ctrl_list_ref (load_ctrl_config (load_ctrl_config st c) c2) c) = _
    rw [h1]
    show (if st.next = st.next then _ else _) = _
    rw [if_pos rfl]
    show _ = f ((load_ctrl_config (load_ctrl_config st c) c2).heap
      (get_ctrl_list_ref (load_ctrl_config (load_ctrl_config st c) c2) c))
    rw [h1]

/-- A sample in-place mutation of a configuration. -/
def sampleMut : CtrlConfig → CtrlConfig := fun _ => [sampleScreen2]

/-- Witness for C2 at concrete inputs (sampleStore, channels 3 and 4). -/
theorem load_ctrl_config_copy_isolation_witness :
    ((3 : Nat) ≠ 4 ∧ sampleStore.ctrl_list < sampleStore.next) ∧
    (get_ctrl_list_ref (load_ctrl_config (load_ctrl_config sampleStore 3) 4) 3
        ≠ get_ctrl_list_ref (load_ctrl_config (load_ctrl_config sampleStore 3) 4) 4 ∧
    get_ctrl_list_ref (load_ctrl_config (load_ctrl_config sampleStore 3) 4) 3
        ≠ (load_ctrl_config (load_ctrl_config sampleStore 3) 4).ctrl_list ∧
    get_ctrl_list_ref (load_ctrl_config (load_ctrl_config sampleStore 3) 4) 4
        ≠ (load_ctrl_config (load_ctrl_config sampleStore 3) 4).ctrl_list ∧
    get_ctrl_list_val
        (write_config (load_ctrl_config (load_ctrl_config sampleStore 3) 4)
          (get_ctrl_list_ref (load_ctrl_config (load_ctrl_config sampleStore 3) 4) 3)
          sampleMut) 4
      = get_ctrl_list_val (load_ctrl_config (load_ctrl_config sampleStore 3) 4) 4 ∧
    (write_config (load_ctrl_config (load_ctrl_config sampleStore 3) 4)
          (get_ctrl_list_ref (load_ctrl_config (load_ctrl_config sampleStore 3) 4) 3)
          sampleMut).heap sampleStore.ctrl_list
      = sampleStore.heap sampleStore.ctrl_list ∧
    get_ctrl_list_val
        (write_config (load_ctrl_config (load_ctrl_config sampleStore 3) 4)
          (get_ctrl_list_ref (load_ctrl_config (load_ctrl_config sampleStore 3) 4) 3)
          sampleMut) 3
      = sampleMut (get_ctrl_list_val (load_ctrl_config (load_ctrl_config sampleStore 3) 4) 3)) :=
  ⟨⟨by decide, by decide⟩,
   load_ctrl_config_copy_isolation sampleStore 3 4 (by decide) (by decide) sampleMut⟩

/- ---------------------------------------------------------------------
C10: unloaded channels alias the shared template. -/

/-- C10: for channels that were never loaded, get_ctrl_list hands out the
shared class-level template itself (the same reference for every unloaded
channel), so an in-place mutation through the view of one unloaded channel is
seen by every other unloaded channel, and a later load_ctrl_config
deep-copies the mutated template value. -/
theorem get_ctrl_list_unloaded_aliases_template (st : CtrlStore) (c c2 c3 : Nat)
    (h1 : st.ctrl_config c = none) (h2 : st.ctrl_config c2 = none)
    (f : CtrlConfig → CtrlConfig) :
    get_ctrl_list_ref st c = st.ctrl_list ∧
    get_ctrl_list_ref st c2 = st.ctrl_list ∧
    get_ctrl_list_val (write_config st (get_ctrl_list_ref st c) f) c2
      = f (st.heap st.ctrl_list) ∧
    get_ctrl_list_val
        (load_ctrl_config (write_config st (get_ctrl_list_ref st c) f) c3) c3
      = f (st.heap st.ctrl_list) := by
  have hrc : get_ctrl_list_ref st c = st.ctrl_list := by
    simp [get_ctrl_list_ref, h1]
  have hrc2 : get_ctrl_list_ref st c2 = st.ctrl_list := by
    simp [get_ctrl_list_ref, h2]
  refine ⟨hrc, hrc2, ?_, ?_⟩
  · show (write_config st (get_ctrl_list_ref st c) f).heap
        (get_ctrl_list_ref (write_config st (get_ctrl_list_ref st c) f) c2) = _
    have : get_ctrl_list_ref (write_config st (get_ctrl_list_ref st c) f) c2
        = st.ctrl_list := hrc2
    rw [this, hrc]
    show (if st.ctrl_list = st.ctrl_list then _ else _) = _
    rw [if_pos rfl]
  · show (load_ctrl_config (write_config st (get_ctrl_list_ref st c) f) c3).heap
        (get_ctrl_list_ref (load_ctrl_config (write_config st (get_ctrl_list_ref st c) f) c3) c3) = _
    have href : get_ctrl_list_ref
        (load_ctrl_config (write_config st (get_ctrl_list_ref st c) f) c3) c3
        = st.next := by
      simp [get_ctrl_list_ref, load_ctrl_config, write_config]
    rw [href]
    show (if st.next = st.next then _ else _) = _
    rw [if_pos rfl, hrc]
    show (if st.ctrl_list = st.ctrl_list then _ else _) = _
    rw [if_pos rfl]

/-- Witness for C10 at concrete inputs (sampleStore, unloaded channels 3
and 4, later load of channel 7). -/
theorem get_ctrl_list_unloaded_aliases_template_witness :
    (sampleStore.ctrl_config 3 = none ∧ sampleStore.ctrl_config 4 = none) ∧
    (get_ctrl_list_ref sampleStore 3 = sampleStore.ctrl_list ∧
    get_ctrl_list_ref sampleStore 4 = sampleStore.ctrl_list ∧
    get_ctrl_list_val (write_config sampleStore (get_ctrl_list_ref sampleStore 3) sampleMut) 4
      = sampleMut (sampleStore.heap sampleStore.ctrl_list) ∧
    get_ctrl_list_val
        (load_ctrl_config
          (write_config sampleStore (get_ctrl_list_ref sampleStore 3) sampleMut) 7) 7
      = sampleMut (sampleStore.heap sampleStore.ctrl_list)) :=
  ⟨⟨by decide, by decide⟩,
   get_ctrl_list_unloaded_aliases_template sampleStore 3 4 7 (by decide) (by decide) sampleMut⟩

/- ---------------------------------------------------------------------
C4: busy-counter balance across operations. -/

/-- A listdir collaborator that always fails (directory missing or
unreadable). -/
def failListing : String → Except PyErr (List String) :=
  fun _ => Except.error { isAddressError := false }

/-- C4 counterexample: get_filelist increments the busy counter on entry
but contains no handler, so when os.listdir raises, the error propagates
with the counter left incremented — after the call it is 1, not the 0 it
started from, refuting "exactly one matching decrement on every exit
path" for this operation. -/
theorem get_filelist_error_leaks_loading_increment :
    (get_filelist sampleState (Sum.inl "/nonexistent") "wav" failListing
        (fun _ => false)).2 = Except.error { isAddressError := false } ∧
    (get_filelist sampleState (Sum.inl "/nonexistent") "wav" failListing
        (fun _ => false)).1.loading = 1 ∧
    ¬ (get_filelist sampleState (Sum.inl "/nonexistent") "wav" failListing
        (fun _ => false)).1.loading = sampleState.loading := by
  refine ⟨rfl, by decide, by decide⟩

/-- C4 amended: the operations with internal exception handling — start,
stop, proc_cmd, and osc_init as long as its failures are address errors
(the only kind its handler catches) — restore the busy counter on every
exit path, including caught-error paths; get_filelist restores it only on
error-free runs, since a listing error escapes with the increment kept. -/
theorem loading_counter_restored_amended :
    (∀ (s : EngineState) (sq : Bool) (popen : Except PyErr Nat),
      0 ≤ s.loading → (start s sq popen).loading = s.loading) ∧
    (∀ s : EngineState, 0 ≤ s.loading → (stop s).loading = s.loading) ∧
    (∀ (s : EngineState) (w : Except PyErr Unit) (lines : List String),
      0 ≤ s.loading → (proc_cmd s w lines).1.loading = s.loading) ∧
    (∀ (s : EngineState) (mkTarget : Except PyErr OscAddr)
        (mkServer : Except PyErr Nat) (getPort : Except PyErr Int)
        (mkUrl : Except PyErr String) (startSrv : Except PyErr Unit),
      0 ≤ s.loading →
      (∀ e, mkTarget = Except.error e → e.isAddressError = true) →
      (∀ e, mkServer = Except.error e → e.isAddressError = true) →
      (∀ e, getPort = Except.error e → e.isAddressError = true) →
      (∀ e, mkUrl = Except.error e → e.isAddressError = true) →
      (∀ e, startSrv = Except.error e → e.isAddressError = true) →
      (osc_init s mkTarget mkServer getPort mkUrl startSrv).1.loading
        = s.loading) ∧
    (∀ (s : EngineState) (dpath : String ⊕ List (String × String)) (fext : String)
        (listdir : String → Except PyErr (List String)) (isfile : String → Bool)
        (res : List FileEntry),
      0 ≤ s.loading →
      (get_filelist s dpath fext listdir isfile).2 = Except.ok res →
      (get_filelist s dpath fext listdir isfile).1.loading = s.loading) := by
  refine ⟨?_, ?_, ?_, ?_, ?_⟩
  · intro s sq popen h
    unfold start
    cases hp : s.proc with
    | some p => rfl
    | none =>
      cases popen with
      | error e => exact stop_loading_undo _ s.loading h (start_loading_val s h)
      | ok p =>
        cases sq
        · exact stop_loading_undo _ s.loading h (start_loading_val s h)
        · exact stop_loading_undo _ s.loading h (start_loading_val s h)
  · intro s h
    unfold stop
    cases hp : s.proc with
    | none => rfl
    | some p => exact stop_loading_undo _ s.loading h (start_loading_val s h)
  · intro s w lines h
    unfold proc_cmd
    cases hp : s.proc with
    | none => rfl
    | some p =>
      cases w with
      | ok u => exact stop_loading_undo _ s.loading h (start_loading_val s h)
      | error e => exact stop_loading_undo _ s.loading h (start_loading_val s h)
  · intro s mkTarget mkServer getPort mkUrl startSrv h htgt hsrv hport hurl hstart
    cases mkTarget with
    | error e =>
      unfold osc_init
      dsimp only
      rw [if_pos (htgt e rfl)]
      exact stop_loading_undo _ s.loading h (start_loading_val s h)
    | ok tgt =>
      cases mkServer with
      | error e =>
        unfold osc_init
        dsimp only
        rw [if_pos (hsrv e rfl)]
        exact stop_loading_undo _ s.loading h (start_loading_val s h)
      | ok srv =>
        cases getPort with
        | error e =>
          unfold osc_init
          dsimp only
          rw [if_pos (hport e rfl)]
          exact stop_loading_undo _ s.loading h (start_loading_val s h)
        | ok port =>
          cases mkUrl with
          | error e =>
            unfold osc_init
            dsimp only
            rw [if_pos (hurl e rfl)]
            exact stop_loading_undo _ s.loading h (start_loading_val s h)
          | ok url =>
            cases startSrv with
            | error e =>
              unfold osc_init
              dsimp only
              rw [if_pos (hstart e rfl)]
              exact stop_loading_undo _ s.loading h (start_loading_val s h)
            | ok u =>
              unfold osc_init
              dsimp only
              exact stop_loading_undo _ s.loading h (start_loading_val s h)
  · intro s dpath fext listdir isfile res h hok
    unfold get_filelist at hok ⊢
    dsimp only at hok ⊢
    split at hok
    next e heq =>
      simp at hok
    next val heq =>
      exact stop_loading_undo _ s.loading h (start_loading_val s h)

/-- Witness for the amended C4 at concrete inputs. -/
theorem loading_counter_restored_amended_witness :
    ((start sampleState true (Except.error { isAddressError := false })).loading
      = sampleState.loading) ∧
    ((stop sampleLive).loading = sampleLive.loading) ∧
    ((proc_cmd sampleLive (Except.error { isAddressError := false }) []).1.loading
      = sampleLive.loading) ∧
    ((osc_init sampleState (Except.ok sampleTarget) (Except.ok 1)
        (Except.ok 9000) (Except.ok "osc.udp://localhost:9000/")
        (Except.ok ())).1.loading = sampleState.loading) ∧
    ((get_filelist sampleState (Sum.inr [("kit", "/zynbanks/kit")]) "wav"
        kitListing kitIsFile).1.loading = sampleState.loading) :=
  ⟨loading_counter_restored_amended.1 sampleState true
      (Except.error { isAddressError := false }) (by decide),
   loading_counter_restored_amended.2.1 sampleLive (by decide),
   loading_counter_restored_amended.2.2.1 sampleLive
      (Except.error { isAddressError := false }) [] (by decide),
   loading_counter_restored_amended.2.2.2.1 sampleState (Except.ok sampleTarget)
      (Except.ok 1) (Except.ok 9000) (Except.ok "osc.udp://localhost:9000/")
      (Except.ok ()) (by decide) (fun e he => nomatch he)
      (fun e he => nomatch he) (fun e he => nomatch he)
      (fun e he => nomatch he) (fun e he => nomatch he),
   loading_counter_restored_amended.2.2.2.2 sampleState
      (Sum.inr [("kit", "/zynbanks/kit")]) "wav" kitListing kitIsFile
      [{ fpath := "/zynbanks/kit/drums.wav", idx := 0,
         title := "kit/drums", dname := "kit" },
       { fpath := "/zynbanks/kit/piano_1.wav", idx := 1,
         title := "kit/piano 1", dname := "kit" }] (by decide) rfl⟩

end ZynthianEngine
